import Mathlib

/-!
Shallow embedding of `src/diagnostic/relay/relay_switcher.py`, a diagnostic
script that exercises the relays of a networked appliance controller.  Pure
payload construction is embedded as Lean functions over lists; the network is
an oracle giving the outcome of each control call and each status call in
sequence; the modes (`run_test_cycle`, `continuous_mode`,
`single_appliance_mode`, `main`) are embedded as trace-producing functions.
-/

namespace RelaySwitcher

/-- Mirrors `SWITCH_INTERVAL = 5` (seconds). -/
def SWITCH_INTERVAL : Nat := 5

/-- Mirrors `APPLIANCES = ["Filter", "CO2", "Light", "Heater", "HangOnFilter", "WaveMaker"]`. -/
def APPLIANCES : List String :=
  ["Filter", "CO2", "Light", "Heater", "HangOnFilter", "WaveMaker"]

/-- The `"action"` field of a command entry: `"ON"` or `"OFF"`. -/
inductive Action where
  | ON
  | OFF
deriving DecidableEq

/-- One element of the `"appliances"` list of a control payload:
`{"name": ..., "action": ..., "timeout_minutes": ...}`. -/
structure Entry where
  name : String
  action : Action
  timeout_minutes : Nat
deriving DecidableEq

/-- Mirrors the payload built by `turn_all_off` (lines 44-49):
every configured appliance mapped to action OFF with `timeout_minutes = 5`. -/
def turn_all_off_payload : List Entry :=
  APPLIANCES.map (fun appliance => ⟨appliance, Action.OFF, 5⟩)

/-- Mirrors the payload built by `turn_on_single(appliance_name)` (lines 54-59):
action `"ON" if appliance == appliance_name else "OFF"` for each configured
appliance, `timeout_minutes = 5`. -/
def turn_on_single_payload (appliance_name : String) : List Entry :=
  APPLIANCES.map (fun appliance =>
    ⟨appliance, if appliance = appliance_name then Action.ON else Action.OFF, 5⟩)

/-- Mirrors the inline ON payload of `single_appliance_mode` (lines 240-245). -/
def single_mode_on_payload (appliance_name : String) : List Entry :=
  APPLIANCES.map (fun app =>
    ⟨app, if app = appliance_name then Action.ON else Action.OFF, 5⟩)

/-- Mirrors the inline OFF payload of `single_appliance_mode` (lines 260-265). -/
def single_mode_off_payload : List Entry :=
  APPLIANCES.map (fun app => ⟨app, Action.OFF, 5⟩)

/-- Outcome of one attempted HTTP request, as observed by
`send_control_command`: a response with some status code and body text, or one
of the three exception classes the source catches
(`requests.exceptions.ConnectionError`, `requests.exceptions.Timeout`, bare
`Exception`). -/
inductive NetResult where
  | response (status : Nat) (body : String)
  | connectionError
  | timeoutError
  | otherException (msg : String)
deriving DecidableEq

/-- The user-facing classification printed by `send_control_command`
(lines 80-98): success, generic failure with status detail, connection error,
timeout, or unclassified error. -/
inductive SendReport where
  | success
  | failedStatus (status : Nat) (body : String)
  | connectionErrorMsg
  | timeoutMsg
  | unclassifiedMsg (msg : String)
deriving DecidableEq

/-- Which message `send_control_command` prints for a given request outcome
(the `if response.status_code == 200 / else` and the three `except` arms). -/
def send_control_report : NetResult → SendReport
  | NetResult.response s body =>
      if s = 200 then SendReport.success else SendReport.failedStatus s body
  | NetResult.connectionError => SendReport.connectionErrorMsg
  | NetResult.timeoutError => SendReport.timeoutMsg
  | NetResult.otherException m => SendReport.unclassifiedMsg m

/-- The boolean `send_control_command` returns: `True` exactly when
`response.status_code == 200`, `False` on a non-200 response and in every
`except` arm. -/
def sendOk : NetResult → Bool
  | NetResult.response s _ => s == 200
  | _ => false

/-- A JSON value found under `"temperature_celsius"` (a number), or the string
default `"N/A"` supplied by `status_data.get("temperature_celsius", "N/A")`. -/
inductive JsonTemp where
  | num (q : ℚ)
  | str (s : String)
deriving DecidableEq

/-- How `display_status` renders the temperature (lines 124-130): the value
-127.0 is flagged `(SENSOR ERROR!)`, any other number is printed as a plain
reading, and a non-numeric value is printed verbatim. -/
inductive TempRendering where
  | sensorError (q : ℚ)
  | plainReading (q : ℚ)
  | rawText (s : String)
deriving DecidableEq

/-- Mirrors the temperature branch of `display_status`:
`if temp == -127.0: ... elif isinstance(temp, (int, float)): ... else: ...`. -/
def temp_rendering : JsonTemp → TempRendering
  | JsonTemp.num q =>
      if q = -127 then TempRendering.sensorError q else TempRendering.plainReading q
  | JsonTemp.str s => TempRendering.rawText s

/-- Reported per-appliance status in a `/status` response body. -/
structure ApplianceStatus where
  state : Action
  mode : Option String
deriving DecidableEq

/-- A decoded `/status` response body: `temperature_celsius` (possibly absent)
and the per-appliance states. -/
structure StatusData where
  temperature_celsius : Option JsonTemp
  appliances : List (String × ApplianceStatus)
deriving DecidableEq

/-- The temperature rendering `display_status` produces for a status snapshot,
with the `"N/A"` default for a missing key. -/
def display_temp (s : StatusData) : TempRendering :=
  temp_rendering (s.temperature_celsius.getD (JsonTemp.str "N/A"))

/-- The network environment: `ctrl n` is the outcome of the n-th `POST
/control` request, and `stat n` is the result of the n-th `GET /status`
request as `get_status` reports it — `some` data iff the response was a 200
with a decodable body, `none` for every failure (`get_status` swallows all
errors into `None`). -/
structure Envs where
  ctrl : Nat → NetResult
  stat : Nat → Option StatusData

/-- How many control and status requests have been issued so far. -/
structure NetState where
  ck : Nat
  sk : Nat
deriving DecidableEq

/-- One observable step of the script: a `POST /control` with its payload and
success flag, a `GET /status` with its success flag, or a `time.sleep`. -/
inductive Ev where
  | control (payload : List Entry) (ok : Bool)
  | statusGet (ok : Bool)
  | sleep (secs : Nat)
deriving DecidableEq

def isControlEv : Ev → Bool
  | Ev.control _ _ => true
  | _ => false

def isStatusEv : Ev → Bool
  | Ev.statusGet _ => true
  | _ => false

/-- A control call whose payload is the all-off payload. -/
def isAllOffEv : Ev → Bool
  | Ev.control p _ => decide (p = turn_all_off_payload)
  | _ => false

/-- The `for appliance in APPLIANCES` body of `run_test_cycle` (lines
172-186): `turn_on_single`; on failure sleep 1 and continue with the next
appliance; on success sleep 1, `get_status`, sleep `SWITCH_INTERVAL`. -/
def applianceLoop (E : Envs) : NetState → List String → NetState × List Ev
  | st, [] => (st, [])
  | st, a :: rest =>
    let ok := sendOk (E.ctrl st.ck)
    let st1 : NetState := ⟨st.ck + 1, st.sk⟩
    if ok then
      let s := E.stat st1.sk
      let st2 : NetState := ⟨st1.ck, st1.sk + 1⟩
      let r := applianceLoop E st2 rest
      (r.1, Ev.control (turn_on_single_payload a) ok :: Ev.sleep 1 ::
            Ev.statusGet s.isSome :: Ev.sleep SWITCH_INTERVAL :: r.2)
    else
      let r := applianceLoop E st1 rest
      (r.1, Ev.control (turn_on_single_payload a) ok :: Ev.sleep 1 :: r.2)

/-- Mirrors `run_test_cycle` (lines 155-196): initial `turn_all_off` (failure
returns `False` at once), sleep 1, `get_status`, sleep 2, the appliance loop,
final `turn_all_off` (result ignored), sleep 1, `get_status`, return `True`. -/
def run_test_cycle (E : Envs) (st : NetState) : Bool × NetState × List Ev :=
  let ok0 := sendOk (E.ctrl st.ck)
  let st1 : NetState := ⟨st.ck + 1, st.sk⟩
  if ok0 then
    let s1 := E.stat st1.sk
    let st2 : NetState := ⟨st1.ck, st1.sk + 1⟩
    let r := applianceLoop E st2 APPLIANCES
    let ok4 := sendOk (E.ctrl r.1.ck)
    let st4 : NetState := ⟨r.1.ck + 1, r.1.sk⟩
    let s5 := E.stat st4.sk
    let st5 : NetState := ⟨st4.ck, st4.sk + 1⟩
    (true, st5,
      Ev.control turn_all_off_payload ok0 :: Ev.sleep 1 :: Ev.statusGet s1.isSome ::
        Ev.sleep 2 ::
        (r.2 ++ [Ev.control turn_all_off_payload ok4, Ev.sleep 1, Ev.statusGet s5.isSome]))
  else
    (false, st1, [Ev.control turn_all_off_payload ok0])

/-- Up to `fuel` iterations of the `while True` loop of `continuous_mode`
(lines 205-217): run a cycle; if it fails, break; otherwise sleep 5 and loop.
The boolean is `true` when the loop is still running after `fuel` iterations
and `false` when it broke because a cycle failed. -/
def continuousIters (E : Envs) : NetState → Nat → Bool × NetState × List Ev
  | st, 0 => (true, st, [])
  | st, fuel + 1 =>
    let c := run_test_cycle E st
    if c.1 then
      let rest := continuousIters E c.2.1 fuel
      (rest.1, rest.2.1, c.2.2 ++ Ev.sleep 5 :: rest.2.2)
    else
      (false, c.2.1, c.2.2)

/-- `continuous_mode` when a `KeyboardInterrupt` arrives during iteration
`j + 1`, just before the `i`-th observable step of that iteration's cycle:
the `j` completed iterations run, the interrupted cycle performs its first `i`
steps, then the `except KeyboardInterrupt` handler (lines 219-223) issues one
`turn_all_off`.  If the loop already broke within the first `j` iterations the
interrupt never fires and the trace is just the loop's trace. -/
def continuous_mode_interrupted (E : Envs) (j i : Nat) : List Ev :=
  let r := continuousIters E ⟨0, 0⟩ j
  if r.1 then
    let cyc := (run_test_cycle E r.2.1).2.2
    let pre := cyc.take i
    let ck := r.2.1.ck + pre.countP isControlEv
    r.2.2 ++ pre ++ [Ev.control turn_all_off_payload (sendOk (E.ctrl ck))]
  else
    r.2.2

/-- One iteration of the `while True` loop of `single_appliance_mode` (lines
232-277): send the single-ON payload (failure breaks), sleep 1, `get_status`,
sleep `SWITCH_INTERVAL`, send the all-OFF payload (failure breaks), sleep 1,
`get_status`, sleep 3.  The boolean is `false` when the iteration broke. -/
def single_iter (E : Envs) (st : NetState) (appliance_name : String) :
    Bool × NetState × List Ev :=
  let ok1 := sendOk (E.ctrl st.ck)
  let st1 : NetState := ⟨st.ck + 1, st.sk⟩
  if ok1 then
    let s2 := E.stat st1.sk
    let st2 : NetState := ⟨st1.ck, st1.sk + 1⟩
    let ok3 := sendOk (E.ctrl st2.ck)
    let st3 : NetState := ⟨st2.ck + 1, st2.sk⟩
    if ok3 then
      let s4 := E.stat st3.sk
      let st4 : NetState := ⟨st3.ck, st3.sk + 1⟩
      (true, st4,
        [Ev.control (single_mode_on_payload appliance_name) ok1, Ev.sleep 1,
         Ev.statusGet s2.isSome, Ev.sleep SWITCH_INTERVAL,
         Ev.control single_mode_off_payload ok3, Ev.sleep 1,
         Ev.statusGet s4.isSome, Ev.sleep 3])
    else
      (false, st3,
        [Ev.control (single_mode_on_payload appliance_name) ok1, Ev.sleep 1,
         Ev.statusGet s2.isSome, Ev.sleep SWITCH_INTERVAL,
         Ev.control single_mode_off_payload ok3])
  else
    (false, st1, [Ev.control (single_mode_on_payload appliance_name) ok1])

/-- Up to `fuel` iterations of the `single_appliance_mode` loop; the boolean
is `true` when the loop is still running after `fuel` iterations, `false` when
a send failure broke it. -/
def single_loop (E : Envs) (appliance_name : String) : NetState → Nat → Bool × NetState × List Ev
  | st, 0 => (true, st, [])
  | st, fuel + 1 =>
    let c := single_iter E st appliance_name
    if c.1 then
      let rest := single_loop E appliance_name c.2.1 fuel
      (rest.1, rest.2.1, c.2.2 ++ rest.2.2)
    else
      (false, c.2.1, c.2.2)

/-- `single_appliance_mode`: with `intr = some (j, i)` a `KeyboardInterrupt`
arrives during iteration `j + 1` just before its `i`-th observable step and
the handler (lines 279-283) issues one `turn_all_off`; with `intr = none` the
loop runs until a send failure breaks it (bounded by `fuel`).  A `break`
leaves the `try` block normally, so no handler and no cleanup runs then. -/
def single_appliance_run (E : Envs) (appliance_name : String) (fuel : Nat)
    (intr : Option (Nat × Nat)) : List Ev :=
  match intr with
  | some (j, i) =>
    let r := single_loop E appliance_name ⟨0, 0⟩ j
    if r.1 then
      let iterEvs := (single_iter E r.2.1 appliance_name).2.2
      let pre := iterEvs.take i
      let ck := r.2.1.ck + pre.countP isControlEv
      r.2.2 ++ pre ++ [Ev.control turn_all_off_payload (sendOk (E.ctrl ck))]
    else
      r.2.2
  | none => (single_loop E appliance_name ⟨0, 0⟩ fuel).2.2

/-- Python's `str.lower()` on the ASCII identifiers used here: lowercase every
character. -/
def py_lower (s : String) : String :=
  String.mk (s.data.map Char.toLower)

/-- The case-insensitive match of `main` (lines 293-297): the first configured
appliance whose lowercased name equals the lowercased argument
(`app.lower() == appliance_name.lower()`). -/
def matchAppliance (appliance_name : String) : Option String :=
  APPLIANCES.find? (fun app => py_lower app == py_lower appliance_name)

/-- Mirrors `main` (lines 285-321), with `args = sys.argv[1:]`: the `-a`
branch (unknown name exits 1 with no network calls, known name runs
single-appliance mode), the `-c` branch, and the default single-cycle branch
whose exit code is 0 iff `run_test_cycle` returned `True`.  The result is
(exit code, trace of network and sleep events). -/
def mainRun (args : List String) (E : Envs) (fuel : Nat) (intr : Option (Nat × Nat)) :
    Nat × List Ev :=
  if 2 ≤ args.length ∧ (args.getD 0 "" = "-a" ∨ args.getD 0 "" = "--appliance") then
    match matchAppliance (args.getD 1 "") with
    | none => (1, [])
    | some matched => (0, single_appliance_run E matched fuel intr)
  else if 1 ≤ args.length ∧ (args.getD 0 "" = "-c" ∨ args.getD 0 "" = "--continuous") then
    (0, match intr with
        | some (j, i) => continuous_mode_interrupted E j i
        | none => (continuousIters E ⟨0, 0⟩ fuel).2.2)
  else
    let r := run_test_cycle E ⟨0, 0⟩
    (if r.1 then 0 else 1, r.2.2)

/-- A device that answers every control request with HTTP 200 and every status
request with a decodable 200 body. -/
def goodEnv : Envs :=
  ⟨fun _ => NetResult.response 200 "OK",
   fun _ => some ⟨some (JsonTemp.num 25), [("Filter", ⟨Action.ON, none⟩)]⟩⟩

/-- A device that is unreachable: every request raises a connection error. -/
def badEnv : Envs :=
  ⟨fun _ => NetResult.connectionError, fun _ => none⟩

/-! ### Helper lemmas about the payload constructors -/

lemma countP_on_map_single (n : String) (l : List String) :
    (l.map (fun a => (⟨a, if a = n then Action.ON else Action.OFF, 5⟩ : Entry))).countP
      (fun e => decide (e.action = Action.ON)) = l.count n := by
  induction l with
  | nil => rfl
  | cons a t ih =>
      by_cases h : a = n <;>
        simp [List.countP_cons, List.count_cons, h, ih]

lemma apps_nodup : APPLIANCES.Nodup := by decide

lemma countP_turn_on_single (n : String) :
    (turn_on_single_payload n).countP (fun e => decide (e.action = Action.ON)) =
      APPLIANCES.count n :=
  countP_on_map_single n APPLIANCES

lemma countP_single_mode_on (n : String) :
    (single_mode_on_payload n).countP (fun e => decide (e.action = Action.ON)) =
      APPLIANCES.count n :=
  countP_on_map_single n APPLIANCES

/-! ### C1, C2, C10: payload shape -/

/-- C1: for every configured appliance name X, the payload built by
`turn_on_single(X)` has exactly one entry with action ON, the entry whose name
is X, every other entry has action OFF, and there is one entry per configured
appliance, in configuration order. -/
theorem turn_on_single_exactly_one (X : String) (hX : X ∈ APPLIANCES) :
    (turn_on_single_payload X).countP (fun e => decide (e.action = Action.ON)) = 1
    ∧ (∀ e ∈ turn_on_single_payload X, (e.action = Action.ON ↔ e.name = X))
    ∧ (turn_on_single_payload X).map Entry.name = APPLIANCES := by
  refine ⟨?_, ?_, ?_⟩
  · rw [countP_turn_on_single]
    exact List.count_eq_one_of_mem apps_nodup hX
  · intro e he
    simp only [turn_on_single_payload, List.mem_map] at he
    obtain ⟨a, _, rfl⟩ := he
    by_cases h : a = X <;> simp [h]
  · rfl

/-- Witness for C1 at the configured name "Filter". -/
theorem turn_on_single_exactly_one_witness :
    (turn_on_single_payload "Filter").countP (fun e => decide (e.action = Action.ON)) = 1
    ∧ (∀ e ∈ turn_on_single_payload "Filter", (e.action = Action.ON ↔ e.name = "Filter"))
    ∧ (turn_on_single_payload "Filter").map Entry.name = APPLIANCES :=
  turn_on_single_exactly_one "Filter" (by decide)

/-- C2: every command payload the script constructs has one entry per
configured appliance and at most one ON entry; the all-off payload (a
constant, hence independent of any prior state) has action OFF for every
configured name, as does the inline OFF payload of single-appliance mode. -/
theorem payload_on_invariant :
    (∀ e ∈ turn_all_off_payload, e.action = Action.OFF)
    ∧ turn_all_off_payload.map Entry.name = APPLIANCES
    ∧ (∀ n, (turn_on_single_payload n).countP (fun e => decide (e.action = Action.ON)) ≤ 1)
    ∧ (∀ n, (single_mode_on_payload n).countP (fun e => decide (e.action = Action.ON)) ≤ 1)
    ∧ single_mode_off_payload = turn_all_off_payload := by
  refine ⟨?_, ?_, ?_, ?_, rfl⟩
  · intro e he
    simp only [turn_all_off_payload, List.mem_map] at he
    obtain ⟨a, _, rfl⟩ := he
    rfl
  · rfl
  · intro n
    rw [countP_turn_on_single]
    exact List.nodup_iff_count_le_one.mp apps_nodup n
  · intro n
    rw [countP_single_mode_on]
    exact List.nodup_iff_count_le_one.mp apps_nodup n

/-- Witness for C2 at a concrete entry and a concrete name. -/
theorem payload_on_invariant_witness :
    (⟨"CO2", Action.OFF, 5⟩ : Entry).action = Action.OFF
    ∧ (turn_on_single_payload "Light").countP (fun e => decide (e.action = Action.ON)) ≤ 1 :=
  ⟨payload_on_invariant.1 ⟨"CO2", Action.OFF, 5⟩ (by decide),
   payload_on_invariant.2.2.1 "Light"⟩

/-- C10: for a name X outside the configured set, the `turn_on_single(X)`
payload coincides with the `turn_all_off` payload: every entry OFF, none ON. -/
theorem turn_on_single_unknown_eq_all_off (X : String) (hX : X ∉ APPLIANCES) :
    turn_on_single_payload X = turn_all_off_payload
    ∧ ∀ e ∈ turn_on_single_payload X, e.action = Action.OFF := by
  have heq : turn_on_single_payload X = turn_all_off_payload := by
    apply List.map_congr_left
    intro a ha
    have : a ≠ X := fun h => hX (h ▸ ha)
    simp [this]
  refine ⟨heq, ?_⟩
  intro e he
  rw [heq] at he
  simp only [turn_all_off_payload, List.mem_map] at he
  obtain ⟨a, _, rfl⟩ := he
  rfl

/-- Witness for C10 at the unknown name "fridge". -/
theorem turn_on_single_unknown_eq_all_off_witness :
    turn_on_single_payload "fridge" = turn_all_off_payload
    ∧ ∀ e ∈ turn_on_single_payload "fridge", e.action = Action.OFF :=
  turn_on_single_unknown_eq_all_off "fridge" (by decide)

/-! ### C3: send-command success condition and failure classification -/

/-- C3: `send_control_command` returns `True` exactly on a 200 response; a
non-200 response, a connection error, a timeout, and an unclassified exception
all return `False`, and the four failure classes are reported with pairwise
distinct messages (all also distinct from the success message). -/
theorem send_control_classification :
    (∀ r, sendOk r = true ↔ send_control_report r = SendReport.success)
    ∧ (∀ s b, sendOk (NetResult.response s b) = true ↔ s = 200)
    ∧ (∀ s b, s ≠ 200 →
        send_control_report (NetResult.response s b) = SendReport.failedStatus s b)
    ∧ send_control_report NetResult.connectionError = SendReport.connectionErrorMsg
    ∧ send_control_report NetResult.timeoutError = SendReport.timeoutMsg
    ∧ (∀ m, send_control_report (NetResult.otherException m) = SendReport.unclassifiedMsg m)
    ∧ sendOk NetResult.connectionError = false
    ∧ sendOk NetResult.timeoutError = false
    ∧ (∀ m, sendOk (NetResult.otherException m) = false)
    ∧ (∀ s b m,
        SendReport.failedStatus s b ≠ SendReport.success
        ∧ SendReport.failedStatus s b ≠ SendReport.connectionErrorMsg
        ∧ SendReport.failedStatus s b ≠ SendReport.timeoutMsg
        ∧ SendReport.failedStatus s b ≠ SendReport.unclassifiedMsg m
        ∧ SendReport.connectionErrorMsg ≠ SendReport.timeoutMsg
        ∧ SendReport.connectionErrorMsg ≠ SendReport.unclassifiedMsg m
        ∧ SendReport.timeoutMsg ≠ SendReport.unclassifiedMsg m) := by
  refine ⟨?_, ?_, ?_, rfl, rfl, fun m => rfl, rfl, rfl, fun m => rfl, ?_⟩
  · intro r
    cases r with
    | response s b =>
        by_cases h : s = 200 <;> simp [sendOk, send_control_report, h]
    | connectionError => simp [sendOk, send_control_report]
    | timeoutError => simp [sendOk, send_control_report]
    | otherException m => simp [sendOk, send_control_report]
  · intro s b
    simp [sendOk]
  · intro s b h
    simp [send_control_report, h]
  · intro s b m
    refine ⟨?_, ?_, ?_, ?_, ?_, ?_, ?_⟩ <;> intro h <;> cases h

/-- Witness for C3 at the non-200 status 404. -/
theorem send_control_classification_witness :
    (sendOk (NetResult.response 404 "err") = true ↔ 404 = 200)
    ∧ send_control_report (NetResult.response 404 "err") = SendReport.failedStatus 404 "err"
    ∧ SendReport.failedStatus 404 "err" ≠ SendReport.timeoutMsg :=
  ⟨send_control_classification.2.1 404 "err",
   send_control_classification.2.2.1 404 "err" (by decide),
   (send_control_classification.2.2.2.2.2.2.2.2.2 404 "err" "boom").2.2.1⟩

/-! ### C4: sensor-error sentinel in status display -/

/-- C4: in the status display, a numeric temperature equal to -127.0 is
rendered with the sensor-error flag, and every other numeric temperature is
rendered as a plain reading. -/
theorem temp_sensor_error_flagging :
    temp_rendering (JsonTemp.num (-127)) = TempRendering.sensorError (-127)
    ∧ (∀ q : ℚ, q ≠ -127 → temp_rendering (JsonTemp.num q) = TempRendering.plainReading q) := by
  refine ⟨by simp [temp_rendering], ?_⟩
  intro q h
  simp [temp_rendering, h]

/-- Witness for C4 at the ordinary reading 25 °C. -/
theorem temp_sensor_error_flagging_witness :
    temp_rendering (JsonTemp.num 25) = TempRendering.plainReading 25 :=
  temp_sensor_error_flagging.2 25 (by norm_num)

/-! ### C6: result and control sequence of one test cycle -/

/-- The control payloads of a trace, in order. -/
def controlPayloads (evs : List Ev) : List (List Entry) :=
  evs.filterMap (fun ev =>
    match ev with
    | Ev.control p _ => some p
    | _ => none)

lemma controlPayloads_append (l₁ l₂ : List Ev) :
    controlPayloads (l₁ ++ l₂) = controlPayloads l₁ ++ controlPayloads l₂ :=
  List.filterMap_append l₁ l₂ _

lemma controlPayloads_nil : controlPayloads [] = [] := rfl

lemma controlPayloads_cons_control (p : List Entry) (ok : Bool) (l : List Ev) :
    controlPayloads (Ev.control p ok :: l) = p :: controlPayloads l := rfl

lemma controlPayloads_cons_sleep (n : Nat) (l : List Ev) :
    controlPayloads (Ev.sleep n :: l) = controlPayloads l := rfl

lemma controlPayloads_cons_status (b : Bool) (l : List Ev) :
    controlPayloads (Ev.statusGet b :: l) = controlPayloads l := rfl

lemma applianceLoop_payloads (E : Envs) (st : NetState) (l : List String) :
    controlPayloads (applianceLoop E st l).2 = l.map turn_on_single_payload := by
  induction l generalizing st with
  | nil => rfl
  | cons a t ih =>
      simp only [applianceLoop]
      cases h : sendOk (E.ctrl st.ck) with
      | true =>
          simp only [h, if_true, controlPayloads_cons_control,
            controlPayloads_cons_sleep, controlPayloads_cons_status, ih,
            List.map_cons]
      | false =>
          simp only [h, Bool.false_eq_true, if_false, controlPayloads_cons_control,
            controlPayloads_cons_sleep, ih, List.map_cons]

/-- C6: `run_test_cycle` returns exactly the success of the initial all-off
send — false iff that send fails — and, whenever the initial send succeeds,
it issues the single-on command for every configured appliance in order
(continuing past per-appliance failures) followed by a final all-off, so that
neither a per-appliance failure, a final all-off failure, nor any status-fetch
failure changes the result. -/
theorem run_test_cycle_result (E : Envs) (st : NetState) :
    (run_test_cycle E st).1 = sendOk (E.ctrl st.ck)
    ∧ ((run_test_cycle E st).1 = false ↔ sendOk (E.ctrl st.ck) = false)
    ∧ (sendOk (E.ctrl st.ck) = true →
        controlPayloads (run_test_cycle E st).2.2 =
          turn_all_off_payload ::
            (APPLIANCES.map turn_on_single_payload ++ [turn_all_off_payload])) := by
  cases h : sendOk (E.ctrl st.ck) with
  | true =>
      refine ⟨?_, ?_, ?_⟩
      · simp [run_test_cycle, h]
      · simp [run_test_cycle, h]
      · intro _
        simp [run_test_cycle, h, controlPayloads_cons_control,
          controlPayloads_cons_sleep, controlPayloads_cons_status,
          controlPayloads_append, controlPayloads_nil, applianceLoop_payloads]
  | false =>
      refine ⟨?_, ?_, ?_⟩
      · simp [run_test_cycle, h]
      · simp [run_test_cycle, h]
      · intro hc
        exact Bool.noConfusion hc

/-- Witness for C6 against the always-200 device. -/
theorem run_test_cycle_result_witness :
    (run_test_cycle goodEnv ⟨0, 0⟩).1 = sendOk (goodEnv.ctrl 0)
    ∧ controlPayloads (run_test_cycle goodEnv ⟨0, 0⟩).2.2 =
        turn_all_off_payload ::
          (APPLIANCES.map turn_on_single_payload ++ [turn_all_off_payload]) :=
  ⟨(run_test_cycle_result goodEnv ⟨0, 0⟩).1,
   (run_test_cycle_result goodEnv ⟨0, 0⟩).2.2 (by rfl)⟩

/-! ### C5: command-line appliance-name handling -/

/-- C5: the single-appliance argument is matched case-insensitively
("filter", "FILTER" and "Filter" all resolve to the configured entry
"Filter"), and for an argument matching no configured name `main` exits with
code 1 having issued no network calls. -/
theorem appliance_arg_handling :
    (matchAppliance "filter" = some "Filter"
     ∧ matchAppliance "FILTER" = some "Filter"
     ∧ matchAppliance "Filter" = some "Filter")
    ∧ ∀ (s : String) (E : Envs) (fuel : Nat) (intr : Option (Nat × Nat)),
        (∀ a ∈ APPLIANCES, py_lower a ≠ py_lower s) →
        mainRun ["-a", s] E fuel intr = (1, []) := by
  refine ⟨⟨by decide, by decide, by decide⟩, ?_⟩
  intro s E fuel intr h
  have hm : matchAppliance s = none := by
    rw [matchAppliance, List.find?_eq_none]
    intro x hx
    simpa using h x hx
  simp [mainRun, hm]

/-- Witness for C5 at the unknown name "fridge". -/
theorem appliance_arg_handling_witness :
    matchAppliance "filter" = some "Filter"
    ∧ mainRun ["-a", "fridge"] badEnv 3 none = (1, []) :=
  ⟨appliance_arg_handling.1.1,
   appliance_arg_handling.2 "fridge" badEnv 3 none (by decide)⟩

/-! ### C8: single-cycle mode against an always-200 device -/

/-- C8: against a device answering every control and status request with 200,
single-cycle mode (no arguments) issues exactly N+2 control calls for N
configured appliances, at least N+2 status polls, and exits with code 0. -/
theorem single_cycle_mode_good_device :
    (mainRun [] goodEnv 0 none).1 = 0
    ∧ (mainRun [] goodEnv 0 none).2.countP isControlEv = APPLIANCES.length + 2
    ∧ APPLIANCES.length + 2 ≤ (mainRun [] goodEnv 0 none).2.countP isStatusEv := by
  decide

/-! ### C9: interrupt in continuous mode -/

/-- C9: when a `KeyboardInterrupt` arrives mid-cycle in continuous mode (the
loop still alive after `j` iterations, the interrupt before step `i` of the
next cycle), the whole remaining trace is exactly one all-off control call:
the handler's final `turn_all_off`, after which nothing further runs. -/
theorem continuous_interrupt_cleanup (E : Envs) (j i : Nat)
    (h : (continuousIters E ⟨0, 0⟩ j).1 = true) :
    ∃ ok,
      continuous_mode_interrupted E j i =
        ((continuousIters E ⟨0, 0⟩ j).2.2
            ++ (run_test_cycle E (continuousIters E ⟨0, 0⟩ j).2.1).2.2.take i)
          ++ [Ev.control turn_all_off_payload ok]
      ∧ (continuous_mode_interrupted E j i).drop
            ((continuousIters E ⟨0, 0⟩ j).2.2
              ++ (run_test_cycle E (continuousIters E ⟨0, 0⟩ j).2.1).2.2.take i).length
          = [Ev.control turn_all_off_payload ok] := by
  have hb : continuous_mode_interrupted E j i =
      ((continuousIters E ⟨0, 0⟩ j).2.2
          ++ (run_test_cycle E (continuousIters E ⟨0, 0⟩ j).2.1).2.2.take i)
        ++ [Ev.control turn_all_off_payload
              (sendOk (E.ctrl ((continuousIters E ⟨0, 0⟩ j).2.1.ck
                + ((run_test_cycle E (continuousIters E ⟨0, 0⟩ j).2.1).2.2.take i).countP
                    isControlEv)))] := by
    simp only [continuous_mode_interrupted, h, if_true]
  exact ⟨_, hb, by rw [hb]; exact List.drop_left _ _⟩

/-- Witness for C9: interrupt before step 3 of the second cycle against the
always-200 device. -/
theorem continuous_interrupt_cleanup_witness :
    ∃ ok,
      continuous_mode_interrupted goodEnv 1 3 =
        ((continuousIters goodEnv ⟨0, 0⟩ 1).2.2
            ++ (run_test_cycle goodEnv (continuousIters goodEnv ⟨0, 0⟩ 1).2.1).2.2.take 3)
          ++ [Ev.control turn_all_off_payload ok]
      ∧ (continuous_mode_interrupted goodEnv 1 3).drop
            ((continuousIters goodEnv ⟨0, 0⟩ 1).2.2
              ++ (run_test_cycle goodEnv (continuousIters goodEnv ⟨0, 0⟩ 1).2.1).2.2.take 3).length
          = [Ev.control turn_all_off_payload ok] :=
  continuous_interrupt_cleanup goodEnv 1 3 (by decide)

/-! ### C7: cleanup behaviour of single-appliance toggle mode -/

/-- Counterexample to C7 as stated: against an unreachable device the first
toggle-mode send fails, the loop breaks, the mode exits — and the whole trace
contains no all-off control call, so no cleanup was attempted on the
send-failure exit path (the `break` leaves the `try` block normally, skipping
the `except KeyboardInterrupt` handler that holds the only cleanup call). -/
theorem single_mode_failure_no_cleanup_cex :
    (single_loop badEnv "Filter" ⟨0, 0⟩ 4).1 = false
    ∧ (single_appliance_run badEnv "Filter" 4 none).countP isAllOffEv = 0 := by
  decide

lemma single_iter_break_last (E : Envs) (st : NetState) (appliance_name : String)
    (h : (single_iter E st appliance_name).1 = false) :
    ∃ evs p, (single_iter E st appliance_name).2.2 = evs ++ [Ev.control p false] := by
  cases h1 : sendOk (E.ctrl st.ck) with
  | false =>
      refine ⟨[], single_mode_on_payload appliance_name, ?_⟩
      simp [single_iter, h1]
  | true =>
      cases h3 : sendOk (E.ctrl (st.ck + 1)) with
      | false =>
          refine ⟨[Ev.control (single_mode_on_payload appliance_name) true, Ev.sleep 1,
                   Ev.statusGet (E.stat st.sk).isSome, Ev.sleep SWITCH_INTERVAL],
                  single_mode_off_payload, ?_⟩
          simp [single_iter, h1, h3]
      | true =>
          exfalso
          simp [single_iter, h1, h3] at h

lemma single_loop_break_last (E : Envs) (appliance_name : String) (st : NetState) (fuel : Nat)
    (h : (single_loop E appliance_name st fuel).1 = false) :
    ∃ evs p, (single_loop E appliance_name st fuel).2.2 = evs ++ [Ev.control p false] := by
  induction fuel generalizing st with
  | zero => exact absurd h (by simp [single_loop])
  | succ n ih =>
      cases hc : (single_iter E st appliance_name).1 with
      | true =>
          simp only [single_loop, hc, if_true] at h ⊢
          obtain ⟨evs, p, hp⟩ := ih _ h
          exact ⟨(single_iter E st appliance_name).2.2 ++ evs, p,
            by rw [hp, List.append_assoc]⟩
      | false =>
          simp only [single_loop, hc, Bool.false_eq_true, if_false] at h ⊢
          exact single_iter_break_last E st appliance_name hc

/-- C7 amended: in single-appliance toggle mode, an operator interruption
triggers a best-effort all-off cleanup (exactly one all-off control call, the
final event of the trace); a failed command send, by contrast, aborts the mode
immediately — the trace ends at the failed send and no all-off cleanup is
attempted on that exit path. -/
theorem single_mode_cleanup_semantics (E : Envs) (appliance_name : String) (fuel j i : Nat) :
    ((single_loop E appliance_name ⟨0, 0⟩ j).1 = true →
      ∃ ok, single_appliance_run E appliance_name fuel (some (j, i)) =
        ((single_loop E appliance_name ⟨0, 0⟩ j).2.2
            ++ (single_iter E (single_loop E appliance_name ⟨0, 0⟩ j).2.1
                appliance_name).2.2.take i)
          ++ [Ev.control turn_all_off_payload ok])
    ∧ ((single_loop E appliance_name ⟨0, 0⟩ fuel).1 = false →
      ∃ evs p, single_appliance_run E appliance_name fuel none =
        evs ++ [Ev.control p false]) := by
  constructor
  · intro h
    refine ⟨sendOk (E.ctrl ((single_loop E appliance_name ⟨0, 0⟩ j).2.1.ck
      + ((single_iter E (single_loop E appliance_name ⟨0, 0⟩ j).2.1
          appliance_name).2.2.take i).countP isControlEv)), ?_⟩
    simp only [single_appliance_run, h, if_true]
  · intro h
    exact single_loop_break_last E appliance_name ⟨0, 0⟩ fuel h

/-- Witness for the amended C7: an interrupt in the second iteration against
the always-200 device yields the cleanup call; against the unreachable device
the mode exits at the failed send. -/
theorem single_mode_cleanup_semantics_witness :
    (∃ ok, single_appliance_run goodEnv "Filter" 2 (some (1, 2)) =
      ((single_loop goodEnv "Filter" ⟨0, 0⟩ 1).2.2
          ++ (single_iter goodEnv (single_loop goodEnv "Filter" ⟨0, 0⟩ 1).2.1
              "Filter").2.2.take 2)
        ++ [Ev.control turn_all_off_payload ok])
    ∧ (∃ evs p, single_appliance_run badEnv "Filter" 2 none =
        evs ++ [Ev.control p false]) :=
  ⟨(single_mode_cleanup_semantics goodEnv "Filter" 2 1 2).1 (by decide),
   (single_mode_cleanup_semantics badEnv "Filter" 2 0 0).2 (by decide)⟩

end RelaySwitcher
